import Mathlib

set_option linter.unusedVariables false

/-!
Verification development for the AudioRouter audio-routing core.

The Python source is embedded shallowly:
- `devices.py` (class DeviceManager)  → namespace `DeviceManager`
- `engine.py`  (class AudioEngine)    → namespace `AudioEngine`
- `app.py`     (class AudioRouterApp) → namespace `App`

Mutable object state becomes explicit state records threaded through the
functions; calls into the host audio subsystem (PyAudio / sounddevice) and
the external switch tool become explicit environment parameters recording
what the outside world would have answered.
-/

/-- A device dict as built in `DeviceManager.refresh_devices`
(`devices.py` lines 46-53): index, name, channel counts, default sample
rate, host API. -/
structure Device where
  index : Nat
  name : String
  max_input_channels : Nat
  max_output_channels : Nat
  default_sample_rate : Nat
  host_api : Nat
deriving DecidableEq

/-- Boolean test that `pre` is a prefix of the second list
(character-by-character), used to model Python substring containment. -/
def isPrefixOfB : List Char → List Char → Bool
  | [], _ => true
  | _ :: _, [] => false
  | a :: as, b :: bs => a == b && isPrefixOfB as bs

/-- Boolean substring containment on character lists: models Python's
`sub in s` on strings. -/
def containsSubB (sub : List Char) : List Char → Bool
  | [] => isPrefixOfB sub []
  | c :: cs => isPrefixOfB sub (c :: cs) || containsSubB sub cs

/-- The loopback marker string hard-coded in `devices.py` ("BlackHole"). -/
def blackholeMarker : String := "BlackHole"

/-- `"BlackHole" in device['name']` (devices.py lines 56, 107). -/
def nameHasBlackhole (d : Device) : Bool :=
  containsSubB blackholeMarker.data d.name.data

namespace DeviceManager

/-- The mutable state of a `DeviceManager` instance: the three cached
device lists and the stored fingerprint (`self.last_device_hash`). -/
structure DMState where
  input_devices : List Device
  output_devices : List Device
  blackhole_devices : List Device
  last_device_hash : String
deriving DecidableEq

/-- One `f"{device['name']}:{device['index']};"` entry of the fingerprint
(devices.py lines 88-91). -/
def deviceHashEntry (d : Device) : String :=
  d.name ++ ":" ++ toString d.index ++ ";"

/-- `DeviceManager._generate_device_hash` (devices.py lines 85-92): the
fingerprint is built from the CACHED `input_devices` / `output_devices`
lists, input entries first, then output entries. -/
def generate_device_hash (st : DMState) : String :=
  st.output_devices.foldl (fun s d => s ++ deviceHashEntry d)
    (st.input_devices.foldl (fun s d => s ++ deviceHashEntry d) "")

/-- The error kind the spec calls `EnumerationError`: the underlying
audio subsystem could not be queried. -/
inductive EnumerationError
  | enumerationFailed
deriving DecidableEq

/-- Body of `DeviceManager.refresh_devices` (devices.py lines 26-74).
The enumeration answer of the host audio subsystem is the parameter
`enum`: `some devs` is a successful `query_devices`/PyAudio walk listing
`devs` in order, `none` means the query raised.  The `try` body first
clears the three lists; on a raise the `except` clause catches, so the
cleared lists persist and `last_device_hash` keeps its old (now stale)
value.  On success the lists are rebuilt by the classification loop
(lines 42-64) and the fingerprint is recomputed from them (line 67). -/
def refresh_core (enum : Option (List Device)) (st : DMState) : DMState :=
  let cleared : DMState :=
    { st with input_devices := [], output_devices := [], blackhole_devices := [] }
  match enum with
  | none => cleared
  | some devs =>
    let st1 : DMState :=
      { cleared with
        blackhole_devices := devs.filter nameHasBlackhole,
        input_devices := devs.filter (fun d => decide (0 < d.max_input_channels)),
        output_devices := devs.filter (fun d => decide (0 < d.max_output_channels)) }
    { st1 with last_device_hash := generate_device_hash st1 }

/-- `DeviceManager.refresh_devices` as seen by its caller: the whole body
sits in `try: ... except Exception as e: logger.error(...)`, so the
method always returns normally (`Except.ok`) — an enumeration failure is
logged and swallowed, never re-raised. -/
def refresh_devices (enum : Option (List Device)) (st : DMState) :
    Except EnumerationError DMState :=
  Except.ok (refresh_core enum st)

/-- `DeviceManager.check_device_changes` (devices.py lines 76-83):
recompute the fingerprint (from the cached lists), compare with the
stored one; on mismatch run a full refresh and report `true`, else
report `false` and leave the state untouched.  `enum` is the host
enumeration answer the internal refresh would see. -/
def check_device_changes (enum : Option (List Device)) (st : DMState) :
    Bool × DMState :=
  let current := generate_device_hash st
  if current != st.last_device_hash then (true, refresh_core enum st)
  else (false, st)

/-- `DeviceManager.get_default_blackhole_device` (devices.py lines
94-99): first cached BlackHole device, `none` if the list is empty. -/
def get_default_blackhole_device (st : DMState) : Option Device :=
  st.blackhole_devices.head?

/-- The `for device in self.output_devices` loop of
`get_default_output_device` (devices.py lines 105-108): first output
whose name does not contain "BlackHole". -/
def firstNonBlackholeOutput : List Device → Option Device
  | [] => none
  | d :: ds => if nameHasBlackhole d then firstNonBlackholeOutput ds else some d

/-- `DeviceManager.get_default_output_device` (devices.py lines
101-112): `none` when there are no outputs; otherwise the first
non-BlackHole output, falling back to `output_devices[0]` when every
output is a BlackHole device. -/
def get_default_output_device (st : DMState) : Option Device :=
  match st.output_devices with
  | [] => none
  | d :: ds =>
    match firstNonBlackholeOutput (d :: ds) with
    | some x => some x
    | none => some d

/-- `DeviceManager.get_device_by_name` (devices.py lines 114-120):
linear scan of the requested list for an exact name match. -/
def get_device_by_name (st : DMState) (name : String) (output : Bool) :
    Option Device :=
  (if output then st.output_devices else st.input_devices).find?
    (fun d => d.name == name)

end DeviceManager

namespace AudioEngine

/-- An audio frame as handed to the callbacks: the raw byte string
(`in_data`), modelled as its list of byte values. -/
abbrev Frame := List Nat

/-- A successfully opened PyAudio stream handle, remembering the
parameters it was opened with (engine.py lines 166-187). -/
structure StreamHandle where
  device_index : Nat
  rate : Nat
  channels : Nat
  frames_per_buffer : Nat
deriving DecidableEq

/-- The slice of the settings store the engine reads
(`settings.get("input_device")`, `"output_device"`, `"sample_rate"`;
engine.py lines 47-48, 68). `none` models an unset key. -/
structure Settings where
  input_device : Option String
  output_device : Option String
  sample_rate : Nat
deriving DecidableEq

/-- The mutable state of an `AudioEngine` instance (engine.py lines
26-35): running flag, the two stream handles, the bounded transfer
queue (`self.audio_buffer`, head = oldest), the selected devices and
the stream parameters. -/
structure EngineState where
  running : Bool
  stream_in : Option StreamHandle
  stream_out : Option StreamHandle
  audio_buffer : List Frame
  input_device : Option Device
  output_device : Option Device
  sample_rate : Nat
  buffer_size : Nat
  channels : Nat
deriving DecidableEq

/-- The external world as `start` sees it: the device manager state it
resolves devices against, the settings values, and whether each of the
two `py_audio.open` calls would succeed or raise. -/
structure EngineEnv where
  dm : DeviceManager.DMState
  settings : Settings
  open_input_ok : Bool
  open_output_ok : Bool
deriving DecidableEq

/-- Error kinds raised out of `start` (engine.py lines 61-65 raise
`ValueError`, stream opening raises the PyAudio error); the spec names
them `DeviceNotFoundError`, `NoOutputDeviceError`, `StreamOpenError`. -/
inductive EngineError
  | deviceNotFound
  | noOutputDevice
  | streamOpenError
deriving DecidableEq

/-- Result of `AudioEngine.start`: a normal return carrying the boolean
result, or a raised error. -/
inductive StartOutcome
  | success : Bool → StartOutcome
  | failure : EngineError → StartOutcome
deriving DecidableEq

/-- The transfer queue capacity: `queue.Queue(maxsize=8)`
(engine.py line 35). -/
def transfer_capacity : Nat := 8

/-- The buffer transition of `input_callback` (engine.py lines
126-145): `put(in_data, block=False)`; on `queue.Full`, `get_nowait()`
(drop the oldest frame, the list head) and then `put` the new frame.
The callback always returns `paContinue`; logging is ignored here. -/
def input_callback (cap : Nat) (buf : List Frame) (in_data : Frame) :
    List Frame :=
  if buf.length < cap then buf ++ [in_data]
  else buf.drop 1 ++ [in_data]

/-- `output_callback` (engine.py lines 148-163): `get(block=False)`
returns the oldest frame; on `queue.Empty` the callback returns
`b'\x00' * (frame_count * self.channels * 2)`, a silent frame.  The
result is the delivered byte frame and the remaining buffer. -/
def output_callback (buf : List Frame) (frame_count channels : Nat) :
    Frame × List Frame :=
  match buf with
  | [] => (List.replicate (frame_count * channels * 2) 0, [])
  | d :: rest => (d, rest)

/-- `AudioEngine._close_streams` (engine.py lines 196-223): stop and
close each stream (errors caught), set both handles to `None`, then
drain the transfer queue to empty. -/
def close_streams (st : EngineState) : EngineState :=
  { st with stream_in := none, stream_out := none, audio_buffer := [] }

/-- `AudioEngine.stop` (engine.py lines 87-97): clear the running flag,
join the keep-alive thread, close both streams.  Never raises. -/
def stop (st : EngineState) : EngineState :=
  close_streams { st with running := false }

/-- Engine state predicate for the spec's `Idle` lifecycle state: not
running, both stream handles released, transfer buffer drained. -/
def isIdle (st : EngineState) : Bool :=
  !st.running && st.stream_in.isNone && st.stream_out.isNone
    && st.audio_buffer.isEmpty

/-- The handle a successful `py_audio.open` yields for device `d` with
the engine's current parameters (engine.py lines 166-187). -/
def mkStreamHandle (d : Device) (rate channels bufSize : Nat) : StreamHandle :=
  { device_index := d.index, rate := rate, channels := channels,
    frames_per_buffer := bufSize }

/-- `AudioEngine._start_streams` (engine.py lines 119-194): first
`_close_streams`, then open the input stream, then the output stream;
whichever `open` raises, the `except` clause runs `_close_streams`
(tearing down any partially opened stream) and re-raises, surfaced here
as `some streamOpenError`. -/
def start_streams (env : EngineEnv) (st : EngineState) :
    EngineState × Option EngineError :=
  let st0 := close_streams st
  if env.open_input_ok then
    let stIn := { st0 with
      stream_in := st0.input_device.map
        (fun d => mkStreamHandle d st0.sample_rate st0.channels st0.buffer_size) }
    if env.open_output_ok then
      ({ stIn with
        stream_out := stIn.output_device.map
          (fun d => mkStreamHandle d stIn.sample_rate stIn.channels stIn.buffer_size) },
       none)
    else (close_streams stIn, some .streamOpenError)
  else (close_streams st0, some .streamOpenError)

/-- Input-device resolution in `start` (engine.py lines 50-53):
explicit settings name looked up among the cached input devices,
otherwise the first BlackHole device. -/
def resolve_input (env : EngineEnv) : Option Device :=
  match env.settings.input_device with
  | some n => DeviceManager.get_device_by_name env.dm n false
  | none => DeviceManager.get_default_blackhole_device env.dm

/-- Output-device resolution in `start` (engine.py lines 55-58). -/
def resolve_output (env : EngineEnv) : Option Device :=
  match env.settings.output_device with
  | some n => DeviceManager.get_device_by_name env.dm n true
  | none => DeviceManager.get_default_output_device env.dm

/-- `AudioEngine.start` (engine.py lines 39-85).  If already running:
log and return `False` with nothing touched.  Otherwise resolve and
store both devices, raise `ValueError` ("No BlackHole input device
found...") when the input is missing, `ValueError` ("No output device
found.") when the output is missing, take the sample rate from
settings, run `_start_streams`, and on success set the running flag and
return `True`.  The `except` clause (lines 82-85) calls `stop()` and
re-raises, so every failure path returns through `stop`. -/
def start (env : EngineEnv) (st : EngineState) : EngineState × StartOutcome :=
  if st.running = true then (st, .success false)
  else
    let st1 := { st with
      input_device := resolve_input env,
      output_device := resolve_output env }
    if st1.input_device.isNone then (stop st1, .failure .deviceNotFound)
    else if st1.output_device.isNone then (stop st1, .failure .noOutputDevice)
    else
      let st2 := { st1 with sample_rate := env.settings.sample_rate }
      match start_streams env st2 with
      | (st3, some e) => (stop st3, .failure e)
      | (st3, none) => ({ st3 with running := true }, .success true)

end AudioEngine

namespace App

/-- `RoutingState` (app.py lines 30-32). -/
inductive RoutingState
  | stopped
  | running
deriving DecidableEq

/-- The slice of `AudioRouterApp` state that `stop_routing` touches
(app.py lines 60-62 and 202-236): routing state, the captured previous
output device name, the cached switch-tool availability flag, and the
owned engine state. -/
structure AppState where
  routing_state : RoutingState
  previous_output_device : Option String
  audio_switch_available : Bool
  engine : AudioEngine.EngineState
deriving DecidableEq

/-- `AudioRouterApp.stop_routing` (app.py lines 202-236): stop the
engine; if the switch tool is available and a previous output device
name was captured, issue `set_output_device(previous)` (its success is
only logged); mark routing stopped.  The second component is the switch
command issued to the external tool (`none` when no switch is
attempted).  `self.previous_output_device` is left untouched. -/
def stop_routing (st : AppState) : AppState × Option String :=
  let eng := AudioEngine.stop st.engine
  let switch_cmd :=
    if st.audio_switch_available then st.previous_output_device else none
  ({ st with engine := eng, routing_state := .stopped }, switch_cmd)

end App

/-! Concrete sample data used by counterexamples and witnesses. -/

/-- A plain input-only device (no "BlackHole" in its name). -/
def devMicA : Device :=
  { index := 0, name := "Mic A", max_input_channels := 2,
    max_output_channels := 0, default_sample_rate := 44100, host_api := 0 }

/-- A plain output-only device (the built-in speakers). -/
def devSpeakers : Device :=
  { index := 1, name := "MacBook Pro Speakers", max_input_channels := 0,
    max_output_channels := 2, default_sample_rate := 48000, host_api := 0 }

/-- The BlackHole loopback device (both capture and playback capable). -/
def devBlackhole : Device :=
  { index := 2, name := "BlackHole 2ch", max_input_channels := 2,
    max_output_channels := 2, default_sample_rate := 48000, host_api := 0 }

/-- A blank device-manager state (before any refresh). -/
def dmInit : DeviceManager.DMState :=
  { input_devices := [], output_devices := [], blackhole_devices := [],
    last_device_hash := "" }

/-- Device-manager state after a refresh that saw only `devMicA`. -/
def dmMicOnly : DeviceManager.DMState :=
  DeviceManager.refresh_core (some [devMicA]) dmInit

/-- Device-manager state after a further refresh in which the host
gained `devSpeakers`: a refresh that ADDED a device. -/
def dmMicSpeakers : DeviceManager.DMState :=
  DeviceManager.refresh_core (some [devMicA, devSpeakers]) dmMicOnly

/-- Device-manager state whose outputs are `[devBlackhole, devSpeakers]`
(BlackHole enumerated first). -/
def dmBHFirst : DeviceManager.DMState :=
  DeviceManager.refresh_core (some [devBlackhole, devSpeakers]) dmInit

/-- An idle engine: not running, no streams, empty buffer. -/
def idleEngine : AudioEngine.EngineState :=
  { running := false, stream_in := none, stream_out := none,
    audio_buffer := [], input_device := none, output_device := none,
    sample_rate := 48000, buffer_size := 512, channels := 2 }

/-- An engine marked running with both streams open. -/
def runningEngine : AudioEngine.EngineState :=
  { running := true,
    stream_in := some (AudioEngine.mkStreamHandle devBlackhole 48000 2 512),
    stream_out := some (AudioEngine.mkStreamHandle devSpeakers 48000 2 512),
    audio_buffer := [[7, 7]], input_device := some devBlackhole,
    output_device := some devSpeakers,
    sample_rate := 48000, buffer_size := 512, channels := 2 }

/-- Environment for `start` in which NO device name contains the
loopback marker, but settings name an existing plain input device:
the loopback device is absent from the device set. -/
def envNoBHNamedInput : AudioEngine.EngineEnv :=
  { dm := dmMicSpeakers,
    settings := { input_device := some "Mic A", output_device := none,
                  sample_rate := 48000 },
    open_input_ok := true, open_output_ok := true }

/-- Environment with the loopback device absent and no input-device
preference configured (default resolution). -/
def envNoBHDefaultInput : AudioEngine.EngineEnv :=
  { dm := dmMicSpeakers,
    settings := { input_device := none, output_device := none,
                  sample_rate := 48000 },
    open_input_ok := true, open_output_ok := true }

/-- Environment where both devices resolve but opening the output
stream fails. -/
def envOutputOpenFails : AudioEngine.EngineEnv :=
  { dm := dmBHFirst,
    settings := { input_device := none, output_device := none,
                  sample_rate := 48000 },
    open_input_ok := true, open_output_ok := false }

/-- App state mid-session: routing running, switch tool available, a
previous output device name captured. -/
def appMidSession : App.AppState :=
  { routing_state := .running,
    previous_output_device := some "MacBook Pro Speakers",
    audio_switch_available := true, engine := runningEngine }

/-! Shared helper lemmas. -/

/-- `stop` always leaves the engine in the `Idle` shape. -/
theorem stop_isIdle (st : AudioEngine.EngineState) :
    AudioEngine.isIdle (AudioEngine.stop st) = true := by
  simp [AudioEngine.isIdle, AudioEngine.stop, AudioEngine.close_streams]

/-- Skipping an all-BlackHole prefix leaves the first-non-BlackHole
scan unchanged. -/
theorem firstNB_append_of_all_bh (pre l : List Device)
    (h : ∀ x ∈ pre, nameHasBlackhole x = true) :
    DeviceManager.firstNonBlackholeOutput (pre ++ l) =
      DeviceManager.firstNonBlackholeOutput l := by
  induction pre with
  | nil => rfl
  | cons a as ih =>
    have ha : nameHasBlackhole a = true := h a (by simp)
    simp only [List.cons_append, DeviceManager.firstNonBlackholeOutput, ha,
      if_true]
    exact ih (fun x hx => h x (by simp [hx]))

/-- The first-non-BlackHole scan finds nothing in an all-BlackHole
list. -/
theorem firstNB_eq_none_of_all_bh (l : List Device)
    (h : ∀ x ∈ l, nameHasBlackhole x = true) :
    DeviceManager.firstNonBlackholeOutput l = none := by
  induction l with
  | nil => rfl
  | cons a as ih =>
    simp only [DeviceManager.firstNonBlackholeOutput, h a (by simp), if_true]
    exact ih (fun x hx => h x (by simp [hx]))

/-- On a nonempty output list the default-output scan returns the scan
result, defaulting to the first output. -/
theorem get_default_output_eq (st : DeviceManager.DMState) (d : Device)
    (ds : List Device) (h : st.output_devices = d :: ds) :
    DeviceManager.get_default_output_device st =
      some ((DeviceManager.firstNonBlackholeOutput (d :: ds)).getD d) := by
  simp only [DeviceManager.get_default_output_device, h]
  cases hfn : DeviceManager.firstNonBlackholeOutput (d :: ds) <;> simp [hfn]

/-- Pushing while there is room just appends (no eviction). -/
theorem foldl_push_fill (cap : Nat) (fs : List AudioEngine.Frame) :
    ∀ buf : List AudioEngine.Frame, buf.length + fs.length ≤ cap →
      fs.foldl (AudioEngine.input_callback cap) buf = buf ++ fs := by
  induction fs with
  | nil => intro buf h; simp
  | cons f fs ih =>
    intro buf h
    have hlt : buf.length < cap := by simp at h; omega
    have hstep : AudioEngine.input_callback cap buf f = buf ++ [f] := by
      simp [AudioEngine.input_callback, hlt]
    rw [List.foldl_cons, hstep, ih (buf ++ [f]) (by simp at h ⊢; omega)]
    simp

/-! Claim theorems. -/

/-- Claim C9: `get_default_output_device` returns the first output
device whose name does not contain the loopback marker; if every
output name contains the marker it returns the first output overall;
and it returns `none` exactly when there are no output devices. -/
theorem c9_default_physical_output (st : DeviceManager.DMState) :
    (DeviceManager.get_default_output_device st = none ↔
        st.output_devices = []) ∧
    (∀ pre d post, st.output_devices = pre ++ d :: post →
        (∀ x ∈ pre, nameHasBlackhole x = true) → nameHasBlackhole d = false →
        DeviceManager.get_default_output_device st = some d) ∧
    ((∀ x ∈ st.output_devices, nameHasBlackhole x = true) →
        DeviceManager.get_default_output_device st =
          st.output_devices.head?) := by
  refine ⟨?_, ?_, ?_⟩
  · constructor
    · intro hnone
      cases houts : st.output_devices with
      | nil => rfl
      | cons d ds =>
        rw [get_default_output_eq st d ds houts] at hnone
        exact absurd hnone (by simp)
    · intro houts
      simp [DeviceManager.get_default_output_device, houts]
  · intro pre d post houts hpre hd
    have hfn : DeviceManager.firstNonBlackholeOutput (pre ++ d :: post) =
        some d := by
      rw [firstNB_append_of_all_bh pre _ hpre]
      simp [DeviceManager.firstNonBlackholeOutput, hd]
    cases pre with
    | nil =>
      rw [get_default_output_eq st d post (by simpa using houts)]
      simp only [List.nil_append] at hfn
      simp [hfn]
    | cons p ps =>
      rw [get_default_output_eq st p (ps ++ d :: post) (by simpa using houts)]
      have hfn2 : DeviceManager.firstNonBlackholeOutput
          (p :: (ps ++ d :: post)) = some d := by simpa using hfn
      simp [hfn2]
  · intro hall
    cases houts : st.output_devices with
    | nil => simp [DeviceManager.get_default_output_device, houts]
    | cons d ds =>
      rw [get_default_output_eq st d ds houts,
        firstNB_eq_none_of_all_bh (d :: ds) (by rw [houts] at hall; exact hall)]
      simp [houts]

/-- Witness for C9 at a concrete device set whose outputs are
`[devBlackhole, devSpeakers]`: the BlackHole output is skipped and the
speakers are chosen. -/
theorem c9_default_physical_output_witness :
    DeviceManager.get_default_output_device dmBHFirst = some devSpeakers :=
  (c9_default_physical_output dmBHFirst).2.1 [devBlackhole] devSpeakers []
    (by decide) (by decide) (by decide)

/-- Claim C2: pushing `cap + 1` frames through the input callback's
drop-oldest push, starting from an empty transfer buffer, leaves
exactly the `cap` most-recently-pushed frames in order (the tail of the
pushed sequence): the oldest frame was evicted. -/
theorem c2_drop_oldest_law (cap : Nat) (frames : List AudioEngine.Frame)
    (hcap : 0 < cap) (hlen : frames.length = cap + 1) :
    frames.foldl (AudioEngine.input_callback cap) [] = frames.drop 1 ∧
    (frames.foldl (AudioEngine.input_callback cap) []).length = cap := by
  have hne : frames ≠ [] := by
    intro h; rw [h] at hlen; simp at hlen
  have hsplit := List.dropLast_append_getLast hne
  have hdl : frames.dropLast.length = cap := by
    rw [List.length_dropLast, hlen]
    omega
  have hfill : frames.dropLast.foldl (AudioEngine.input_callback cap) [] =
      frames.dropLast := by
    have h := foldl_push_fill cap frames.dropLast [] (by simp [hdl])
    simpa using h
  have hmain : frames.foldl (AudioEngine.input_callback cap) [] =
      frames.dropLast.drop 1 ++ [frames.getLast hne] := by
    conv_lhs => rw [← hsplit]
    rw [List.foldl_append, hfill]
    simp [AudioEngine.input_callback, hdl]
  have hdropeq : frames.drop 1 =
      frames.dropLast.drop 1 ++ [frames.getLast hne] := by
    conv_lhs => rw [← hsplit]
    rw [List.drop_append_of_le_length (by omega)]
  refine ⟨by rw [hmain, ← hdropeq], ?_⟩
  rw [hmain, ← hdropeq]
  simp [hlen]

/-- Witness for C2: capacity 2, three pushed frames; the two newest
remain, the oldest is gone. -/
theorem c2_drop_oldest_law_witness :
    0 < 2 ∧ ([[0], [1], [2]] : List AudioEngine.Frame).length = 2 + 1 ∧
    (([[0], [1], [2]] : List AudioEngine.Frame).foldl
        (AudioEngine.input_callback 2) [] =
      ([[0], [1], [2]] : List AudioEngine.Frame).drop 1 ∧
    (([[0], [1], [2]] : List AudioEngine.Frame).foldl
        (AudioEngine.input_callback 2) []).length = 2) :=
  ⟨by decide, by decide,
    c2_drop_oldest_law 2 [[0], [1], [2]] (by decide) (by decide)⟩

/-- Claim C5: the playback callback on an empty transfer buffer (the
pop is the total function `output_callback`, so it cannot block)
delivers a frame made entirely of zero bytes, of exact byte length
`frame_count * channels * 2`. -/
theorem c5_silence_on_empty_pop (frame_count channels : Nat) :
    AudioEngine.output_callback [] frame_count channels =
      (List.replicate (frame_count * channels * 2) 0, []) ∧
    (AudioEngine.output_callback [] frame_count channels).1.length =
      frame_count * channels * 2 := by
  exact ⟨rfl, by simp [AudioEngine.output_callback]⟩

/-- Claim C6: `stop` is idempotent — a second `stop` changes nothing,
the state after any `stop` is Idle (not running, both streams closed,
transfer buffer drained), and `stop` on an already-Idle engine is a
no-op.  (`stop` is total: no path in it raises.) -/
theorem c6_stop_idempotent (st : AudioEngine.EngineState) :
    AudioEngine.stop (AudioEngine.stop st) = AudioEngine.stop st ∧
    AudioEngine.isIdle (AudioEngine.stop st) = true ∧
    (AudioEngine.isIdle st = true → AudioEngine.stop st = st) := by
  obtain ⟨r, si, so, ab, idev, odev, sr, bs, ch⟩ := st
  refine ⟨rfl, stop_isIdle _, ?_⟩
  intro hid
  simp only [AudioEngine.isIdle, Bool.and_eq_true, Bool.not_eq_true',
    Option.isNone_iff_eq_none, List.isEmpty_iff] at hid
  obtain ⟨⟨⟨hr, hsi⟩, hso⟩, hab⟩ := hid
  subst hr; subst hsi; subst hso; subst hab
  rfl

/-- Witness for C6 at a concrete idle engine. -/
theorem c6_stop_idempotent_witness :
    AudioEngine.isIdle idleEngine = true ∧
    AudioEngine.stop idleEngine = idleEngine :=
  ⟨by decide, (c6_stop_idempotent idleEngine).2.2 (by decide)⟩

/-- Claim C10: calling `start` while the engine is already running
returns `False` immediately and leaves the entire state — running flag,
stream handles, device selections, transfer buffer — unchanged (the
returned state is the input state itself). -/
theorem c10_start_noop_when_running (env : AudioEngine.EngineEnv)
    (st : AudioEngine.EngineState) (h : st.running = true) :
    AudioEngine.start env st = (st, AudioEngine.StartOutcome.success false) := by
  simp [AudioEngine.start, h]

/-- Witness for C10 at a concrete running engine. -/
theorem c10_start_noop_when_running_witness :
    AudioEngine.start envNoBHNamedInput runningEngine =
      (runningEngine, AudioEngine.StartOutcome.success false) :=
  c10_start_noop_when_running envNoBHNamedInput runningEngine (by decide)

/-- On any stream-open failure `_start_streams` tears everything down:
it returns the fully closed state and raises `StreamOpenError`. -/
theorem start_streams_on_open_failure (env : AudioEngine.EngineEnv)
    (st : AudioEngine.EngineState)
    (hfail : env.open_input_ok = false ∨ env.open_output_ok = false) :
    AudioEngine.start_streams env st =
      (AudioEngine.close_streams st,
       some AudioEngine.EngineError.streamOpenError) := by
  rcases hfail with h | h
  · simp [AudioEngine.start_streams, h, AudioEngine.close_streams]
  · cases h2 : env.open_input_ok <;>
      simp [AudioEngine.start_streams, h2, h, AudioEngine.close_streams]

/-- Claim C4: whenever opening either stream fails during `start`, all
partially-opened streams are fully torn down (both handles reset to
`none`) before the error surfaces: `_start_streams` itself returns the
closed state with `StreamOpenError`, and `start` — when it reaches
stream opening, i.e. not already running and both devices resolved —
surfaces `.failure streamOpenError` with the final state Idle: no
half-open stream is leaked. -/
theorem c4_stream_open_failure_teardown (env : AudioEngine.EngineEnv)
    (st : AudioEngine.EngineState)
    (hfail : env.open_input_ok = false ∨ env.open_output_ok = false) :
    ((AudioEngine.start_streams env st).2 =
        some AudioEngine.EngineError.streamOpenError ∧
      (AudioEngine.start_streams env st).1.stream_in = none ∧
      (AudioEngine.start_streams env st).1.stream_out = none) ∧
    (st.running = false →
      ∀ di do_, AudioEngine.resolve_input env = some di →
        AudioEngine.resolve_output env = some do_ →
        (AudioEngine.start env st).2 =
          AudioEngine.StartOutcome.failure
            AudioEngine.EngineError.streamOpenError ∧
        AudioEngine.isIdle (AudioEngine.start env st).1 = true) := by
  constructor
  · rw [start_streams_on_open_failure env st hfail]
    simp [AudioEngine.close_streams]
  · intro hrun di do_ hdi hdo
    simp only [AudioEngine.start, hrun, Bool.false_eq_true, if_false,
      hdi, hdo]
    rw [start_streams_on_open_failure env _ hfail]
    simp [stop_isIdle]

/-- Witness for C4: devices resolve but the output stream fails to
open; `start` fails with the stream-open error and the engine is left
Idle. -/
theorem c4_stream_open_failure_teardown_witness :
    ((AudioEngine.start_streams envOutputOpenFails idleEngine).2 =
        some AudioEngine.EngineError.streamOpenError ∧
      (AudioEngine.start_streams envOutputOpenFails idleEngine).1.stream_in
        = none ∧
      (AudioEngine.start_streams envOutputOpenFails idleEngine).1.stream_out
        = none) ∧
    (AudioEngine.start envOutputOpenFails idleEngine).2 =
      AudioEngine.StartOutcome.failure
        AudioEngine.EngineError.streamOpenError ∧
    AudioEngine.isIdle (AudioEngine.start envOutputOpenFails idleEngine).1
      = true :=
  ⟨(c4_stream_open_failure_teardown envOutputOpenFails idleEngine
      (Or.inr (by decide))).1,
   (c4_stream_open_failure_teardown envOutputOpenFails idleEngine
      (Or.inr (by decide))).2 (by decide) devBlackhole devSpeakers
      (by decide) (by decide)⟩

/-- Counterexample to claim C3 as stated: in `envNoBHNamedInput` no
device name contains the loopback marker (the loopback device is
absent), yet `start` SUCCEEDS — because settings name an existing plain
input device ("Mic A"), resolution uses the name lookup, never the
BlackHole default, and no error is raised.  So "loopback absent implies
start fails with DeviceNotFoundError" does not hold for every device
set. -/
theorem c3_counterexample :
    (∀ d ∈ envNoBHNamedInput.dm.input_devices ++
        envNoBHNamedInput.dm.output_devices ++
        envNoBHNamedInput.dm.blackhole_devices,
      nameHasBlackhole d = false) ∧
    (AudioEngine.start envNoBHNamedInput idleEngine).2 =
      AudioEngine.StartOutcome.success true ∧
    (AudioEngine.start envNoBHNamedInput idleEngine).1.running = true := by
  decide

/-- Claim C3 (amended): when NO explicit input-device preference is
configured, a device set with the loopback device absent makes `start`
fail with the device-not-found error, and the engine is left Idle — not
running, both streams closed, buffer drained. -/
theorem c3_loopback_absent_default_input (env : AudioEngine.EngineEnv)
    (st : AudioEngine.EngineState) (hrun : st.running = false)
    (hpref : env.settings.input_device = none)
    (hbh : env.dm.blackhole_devices = []) :
    (AudioEngine.start env st).2 =
      AudioEngine.StartOutcome.failure
        AudioEngine.EngineError.deviceNotFound ∧
    AudioEngine.isIdle (AudioEngine.start env st).1 = true := by
  have hri : AudioEngine.resolve_input env = none := by
    simp [AudioEngine.resolve_input, hpref,
      DeviceManager.get_default_blackhole_device, hbh]
  simp [AudioEngine.start, hrun, hri, stop_isIdle]

/-- Witness for amended C3: default input resolution with no BlackHole
device present. -/
theorem c3_loopback_absent_default_input_witness :
    (AudioEngine.start envNoBHDefaultInput idleEngine).2 =
      AudioEngine.StartOutcome.failure
        AudioEngine.EngineError.deviceNotFound ∧
    AudioEngine.isIdle (AudioEngine.start envNoBHDefaultInput idleEngine).1
      = true :=
  c3_loopback_absent_default_input envNoBHDefaultInput idleEngine
    (by decide) (by decide) (by decide)

/-- Counterexample to claim C7 as stated: `stop_routing` on a session
with a captured previous output name does switch back to it, but the
captured name is NOT cleared afterward — `previous_output_device` still
holds the name, where the claim requires it to be `none`. -/
theorem c7_counterexample :
    (App.stop_routing appMidSession).2 = some "MacBook Pro Speakers" ∧
    (App.stop_routing appMidSession).1.previous_output_device =
      some "MacBook Pro Speakers" ∧
    ¬ (App.stop_routing appMidSession).1.previous_output_device = none := by
  decide

/-- Claim C7 (amended): when the switch tool is available and a
previous output name was captured, `stop_routing` switches the system
output back to it (the issued switch command names it, whatever the
switch outcome — the tool's success is only logged) — but the captured
name is RETAINED afterward, not cleared; routing is marked stopped and
the engine is stopped. -/
theorem c7_restore_retains_captured_name (st : App.AppState) (n : String)
    (havail : st.audio_switch_available = true)
    (hprev : st.previous_output_device = some n) :
    (App.stop_routing st).2 = some n ∧
    (App.stop_routing st).1.previous_output_device = some n ∧
    (App.stop_routing st).1.routing_state = App.RoutingState.stopped ∧
    (App.stop_routing st).1.engine = AudioEngine.stop st.engine := by
  simp [App.stop_routing, havail, hprev]

/-- Witness for amended C7 at the concrete mid-session state. -/
theorem c7_restore_retains_captured_name_witness :
    (App.stop_routing appMidSession).2 = some "MacBook Pro Speakers" ∧
    (App.stop_routing appMidSession).1.previous_output_device =
      some "MacBook Pro Speakers" ∧
    (App.stop_routing appMidSession).1.routing_state =
      App.RoutingState.stopped ∧
    (App.stop_routing appMidSession).1.engine =
      AudioEngine.stop appMidSession.engine :=
  c7_restore_retains_captured_name appMidSession "MacBook Pro Speakers"
    (by decide) (by decide)

/-- Counterexample to claim C8 as stated: when the audio subsystem
cannot be queried (`enum = none`), `refresh_devices` returns NORMALLY
(`Except.ok`) — the `except` clause swallows the error after the device
lists were cleared, and nothing is propagated to the caller. -/
theorem c8_counterexample :
    DeviceManager.refresh_devices none dmMicSpeakers =
      Except.ok
        { dmMicSpeakers with
          input_devices := [],
          output_devices := [],
          blackhole_devices := [] } := by
  rfl

/-- Claim C8 (amended): `refresh_devices` never propagates an
enumeration failure: it always returns `ok`; on a failed query the
caught exception leaves the device lists cleared and the stored
fingerprint stale (unchanged). -/
theorem c8_refresh_never_propagates (enum : Option (List Device))
    (st : DeviceManager.DMState) :
    (∃ st2, DeviceManager.refresh_devices enum st = Except.ok st2) ∧
    DeviceManager.refresh_devices none st =
      Except.ok
        { st with
          input_devices := [],
          output_devices := [],
          blackhole_devices := [] } :=
  ⟨⟨DeviceManager.refresh_core enum st, rfl⟩, rfl⟩

/-- Claim C1 evaluated at the failing input (supporting the code-bug
verdict): `dmMicSpeakers` is the manager state immediately after a
refresh that ADDED an output device (`devSpeakers`) relative to
`dmMicOnly`, yet `check_device_changes` right after that refresh
returns `false` — the fingerprint is recomputed from the CACHED lists,
which the refresh also used to update `last_device_hash`, so a
completed refresh can never be reported as a change (the claim and the
function's own purpose require `true` here).  The first part of the
claim — two calls with no intervening refresh both report no change —
does hold, shown by the repeated call. -/
theorem c1_change_detection_misses_refresh :
    dmMicOnly.output_devices = [] ∧
    dmMicSpeakers.output_devices = [devSpeakers] ∧
    DeviceManager.check_device_changes (some [devMicA, devSpeakers])
        dmMicSpeakers = (false, dmMicSpeakers) ∧
    DeviceManager.check_device_changes (some [devMicA, devSpeakers])
        (DeviceManager.check_device_changes (some [devMicA, devSpeakers])
          dmMicSpeakers).2 = (false, dmMicSpeakers) := by
  decide
